import Mathlib

/-!
Verification of the bpfd/bpfman dispatcher core.

Shallow embedding of two source files:
  * `src/bpfman/src/multiprog/xdp.rs` — the XDP dispatcher engine
    (`XdpDispatcher::load` / `attach` / `attach_extensions` / `delete` and the
    sled-backed setters/getters), modelled in namespace `Bpfman`.
  * `src/bpfd/src/lib.rs` — the `serve` command loop (static bootstrap and the
    `Command::Load` handlers), modelled in namespace `BpfdSrv`.

Filesystem pins are modelled as a list of path strings, the sled store as an
association list per tree, and the external kernel/image facilities (aya loader,
image manager) as boolean oracles, since the code treats them as opaque
fallible calls.
-/

namespace Spec2Proof

namespace Bpfman

/-- Error type standing for `BpfmanError` (`errors.rs` is outside the sources;
the constructors mirror the error kinds the spec's §7 lists and the variants
the embedded functions construct). -/
inductive BpfErr where
  | notLoaded
  | bytecodeUnavailable
  | bpfLoadFailed
  | attachFailed (ifname : String)
  | extGraftFailed (slot : Nat)
  | cleanupFailed (path : String)
  | databaseError (key : String)
  | invalidMode (n : Nat)
  deriving DecidableEq, Repr

/-- Modelled from the spec: the runtime pin root `<runtime>/fs`
(`bpfman_api::util::directories::RTDIR_FS`, outside the sources). -/
def RTDIR_FS : String := "/run/bpfd/fs"

/-- Modelled from the spec: the XDP hook pin root `<runtime>/fs/xdp`
(`RTDIR_FS_XDP`, outside the sources). -/
def RTDIR_FS_XDP : String := "/run/bpfd/fs/xdp"

/-- Stable dispatcher link pin `{RTDIR_FS_XDP}/dispatcher_<ifindex>_link`
(xdp.rs line 179/193). -/
def stableLinkPath (ifindex : Nat) : String :=
  RTDIR_FS_XDP ++ "/dispatcher_" ++ toString ifindex ++ "_link"

/-- Per-revision pin directory `{RTDIR_FS_XDP}/dispatcher_<ifindex>_<revision>`
(xdp.rs line 145). -/
def revDirPath (ifindex rev : Nat) : String :=
  RTDIR_FS_XDP ++ "/dispatcher_" ++ toString ifindex ++ "_" ++ toString rev

/-- Extension link pin `link_<id>` inside the per-revision directory
(xdp.rs lines 238-241, 284-287). -/
def extLinkPath (ifindex rev id : Nat) : String :=
  revDirPath ifindex rev ++ "/link_" ++ toString id

/-- Client program pin `{RTDIR_FS}/prog_<id>` (xdp.rs lines 232, 278). -/
def progPinPath (id : Nat) : String :=
  RTDIR_FS ++ "/prog_" ++ toString id

/-- Modelled from the spec: map pin directory `<runtime>/fs/maps/<uuid>`
(`calc_map_pin_path`, outside the sources; spec §6 persistent layout). -/
def mapPinDirPath (id : Nat) : String :=
  RTDIR_FS ++ "/maps/" ++ toString id

/-- Sled tree name `xdp_dispatcher_<ifindex>_<revision>` (xdp.rs line 46). -/
def xdpTreeName (ifindex rev : Nat) : String :=
  "xdp_dispatcher_" ++ toString ifindex ++ "_" ++ toString rev

/-- XDP attach mode (`bpfman_api::config::XdpMode`, outside the sources;
modelled from the spec: native (drv) / skb / hardware-offload). -/
inductive XdpMode where
  | skb
  | drv
  | hw
  deriving DecidableEq, Repr

/-- Modelled from the spec: `mode as u32` discriminant used by `set_mode`. -/
def XdpMode.toU32 : XdpMode → Nat
  | .skb => 0
  | .drv => 1
  | .hw => 2

/-- Modelled from the spec: `XdpMode::try_from` used by `get_mode`. -/
def XdpMode.tryFrom : Nat → Except BpfErr XdpMode
  | 0 => .ok .skb
  | 1 => .ok .drv
  | 2 => .ok .hw
  | n => .error (.invalidMode n)

/-- Modelled from the spec: `XdpMode::as_flags` — the kernel attach mode flags
(aya `XdpFlags`: SKB_MODE / DRV_MODE / HW_MODE). -/
def XdpMode.asFlags : XdpMode → Nat
  | .skb => 2
  | .drv => 4
  | .hw => 8

/-- A sled tree: an association list from key strings to byte strings, most
recent insertion first (sled `insert` overwrites; the newest binding wins). -/
def Tree := List (String × List Nat)

/-- Modelled from the spec: `utils::sled_insert` (outside the sources) — a
durable `put(tree, key, bytes)`. -/
def sled_insert (t : Tree) (k : String) (v : List Nat) : Tree :=
  (k, v) :: t

/-- Modelled from the spec: `utils::sled_get` (outside the sources) —
`get(tree, key) → bytes or NotFound`. -/
def sled_get (t : Tree) (k : String) : Except BpfErr (List Nat) :=
  match t.find? (fun p => p.1 == k) with
  | some p => .ok p.2
  | none => .error (.databaseError k)

/-- Modelled from the spec: `u32::to_ne_bytes`; native endianness taken as
little-endian, four bytes. -/
def u32_to_ne_bytes (n : Nat) : List Nat :=
  [n % 256, n / 256 % 256, n / 65536 % 256, n / 16777216 % 256]

/-- Modelled from the spec: `utils::bytes_to_u32` (outside the sources),
decoding four native-endian bytes. -/
def bytes_to_u32 : List Nat → Nat
  | [a, b, c, d] => a + 256 * b + 65536 * c + 16777216 * d
  | _ => 0

/-- Modelled from the spec: `usize::to_ne_bytes`; eight little-endian bytes. -/
def usize_to_ne_bytes (n : Nat) : List Nat :=
  [n % 256, n / 256 % 256, n / 65536 % 256, n / 16777216 % 256,
   n / 4294967296 % 256, n / 1099511627776 % 256,
   n / 281474976710656 % 256, n / 72057594037927936 % 256]

/-- Modelled from the spec: `utils::bytes_to_usize` (outside the sources). -/
def bytes_to_usize : List Nat → Nat
  | [a, b, c, d, e, f, g, h] =>
      a + 256 * b + 65536 * c + 16777216 * d + 4294967296 * e
        + 1099511627776 * f + 281474976710656 * g + 72057594037927936 * h
  | _ => 0

/-- Modelled from the spec: UTF-8 byte encoding of a string (`str::as_bytes`);
modelled at code-point granularity, an injective encoding with an exact
decoder standing in for UTF-8. -/
def str_to_bytes (s : String) : List Nat :=
  s.data.map Char.toNat

/-- Modelled from the spec: `utils::bytes_to_string` (outside the sources),
the inverse decoding. -/
def bytes_to_string (bs : List Nat) : String :=
  ⟨bs.map Char.ofNat⟩

/-- `XdpDispatcher::set_revision` (xdp.rs lines 341-343). -/
def set_revision (t : Tree) (revision : Nat) : Tree :=
  sled_insert t "revision" (u32_to_ne_bytes revision)

/-- `XdpDispatcher::get_revision` (xdp.rs lines 345-347). -/
def get_revision (t : Tree) : Except BpfErr Nat :=
  (sled_get t "revision").map bytes_to_u32

/-- `XdpDispatcher::set_ifindex` (xdp.rs lines 349-351). -/
def set_ifindex (t : Tree) (if_index : Nat) : Tree :=
  sled_insert t "if_index" (u32_to_ne_bytes if_index)

/-- `XdpDispatcher::get_ifindex` (xdp.rs lines 353-355). -/
def get_ifindex (t : Tree) : Except BpfErr Nat :=
  (sled_get t "if_index").map bytes_to_u32

/-- `XdpDispatcher::set_ifname` (xdp.rs lines 357-359). -/
def set_ifname (t : Tree) (if_name : String) : Tree :=
  sled_insert t "if_name" (str_to_bytes if_name)

/-- `XdpDispatcher::get_ifname` (xdp.rs lines 361-363). -/
def get_ifname (t : Tree) : Except BpfErr String :=
  (sled_get t "if_name").map bytes_to_string

/-- `XdpDispatcher::set_mode` (xdp.rs lines 365-367). -/
def set_mode (t : Tree) (mode : XdpMode) : Tree :=
  sled_insert t "mode" (u32_to_ne_bytes mode.toU32)

/-- `XdpDispatcher::get_mode` (xdp.rs lines 369-373). -/
def get_mode (t : Tree) : Except BpfErr XdpMode :=
  match (sled_get t "mode").map bytes_to_u32 with
  | .ok n => XdpMode.tryFrom n
  | .error e => .error e

/-- `XdpDispatcher::set_num_extensions` (xdp.rs lines 375-381). -/
def set_num_extensions (t : Tree) (num_extensions : Nat) : Tree :=
  sled_insert t "num_extensions" (usize_to_ne_bytes num_extensions)

/-- `XdpDispatcher::get_num_extensions` (xdp.rs lines 383-385). -/
def get_num_extensions (t : Tree) : Except BpfErr Nat :=
  (sled_get t "num_extensions").map bytes_to_usize

/-- `XdpDispatcher::set_program_name` (xdp.rs lines 387-389). -/
def set_program_name (t : Tree) (program_name : String) : Tree :=
  sled_insert t "program_name" (str_to_bytes program_name)

/-- `XdpDispatcher::get_program_name` (xdp.rs lines 391-393). -/
def get_program_name (t : Tree) : Except BpfErr String :=
  (sled_get t "program_name").map bytes_to_string

/-- The daemon-visible state the dispatcher engine mutates: the set of
filesystem pins under the runtime directory (each entry a path) and the set of
sled tree names present in the store. -/
structure World where
  fs : List String
  trees : List String
  deriving DecidableEq, Repr

/-- `fs::create_dir_all` / a pin creation: the path becomes present. -/
def World.addPath (w : World) (p : String) : World :=
  { w with fs := p :: w.fs }

/-- The in-memory fields of an `XdpDispatcher`. In the source these live in
the dispatcher's sled tree and are read back through the getters; by the
setter/getter round-trips proved above the tree reads are equivalent to
record reads, so the engine is embedded over this record. `loaderPresent`
mirrors `self.loader.is_some()` (the `aya::Bpf` handle). -/
structure DispSt where
  if_index : Nat
  if_name : String
  mode : XdpMode
  revision : Nat
  num_extensions : Nat
  program_name : String
  loaderPresent : Bool
  deriving DecidableEq, Repr

/-- State of `self` after `BpfLoader::load` succeeded and
`set_num_extensions` ran (xdp.rs lines 137-150): the loader handle is held
and the extension count recorded. -/
def DispSt.afterBpfLoad (d : DispSt) (n : Nat) : DispSt :=
  { d with loaderPresent := true, num_extensions := n }

/-- One extension slot handed to `attach_extensions`: the program id, the
`attached` flag (already grafted into a previous dispatcher), and whether a
map pin path is already recorded (`get_map_pin_path` is `Some`). -/
structure ExtSlot where
  id : Nat
  attached : Bool
  hasMapPinPath : Bool
  deriving DecidableEq, Repr

/-- Oracle for the external fallible calls the engine makes: image pull,
bytecode read, the aya dispatcher load, the kernel XDP attach, and the
per-slot extension graft (indexed by slot position). -/
structure KernelOracle where
  imagePullOk : Bool
  getBytecodeOk : Bool
  bpfLoadOk : Bool
  xdpAttachOk : Bool
  extOk : Nat → Bool

/-- What `XdpDispatcher::attach` did at the hook. -/
inductive AttachEffect where
  | reusedLink (path : String)
  | attachedNew (flags : Nat) (path : String)
  deriving DecidableEq, Repr

/-- `XdpDispatcher::attach` (xdp.rs lines 160-204). If the stable link pin
`dispatcher_<ifindex>_link` exists it is reopened (`PinnedLink::from_pin`)
and the new dispatcher attaches to that same kernel link
(`attach_to_link`) — no filesystem change. Otherwise the dispatcher is
attached to the interface with `mode.as_flags()` and the resulting link is
pinned at the stable path; a kernel refusal surfaces as an error with no
state change. The `loader` must be present (`ok_or(NotLoaded)`). -/
def XdpDispatcher.attach (k : KernelOracle) (d : DispSt) (w : World) :
    World × Except BpfErr AttachEffect :=
  if d.loaderPresent then
    let path := stableLinkPath d.if_index
    if path ∈ w.fs then
      (w, .ok (.reusedLink path))
    else if k.xdpAttachOk then
      (w.addPath path, .ok (.attachedNew d.mode.asFlags path))
    else
      (w, .error (.attachFailed d.if_name))
  else (w, .error .notLoaded)

/-- Pins created by one successful iteration of the `attach_extensions` loop
(xdp.rs lines 229-308): for an already-attached program only the new link
pin `link_<id>`; for a newly attached program the program pin `prog_<id>`,
the link pin, and — when no map pin path was recorded — the freshly
allocated map pin directory. -/
def applyExtPins (d : DispSt) (e : ExtSlot) (w : World) : World :=
  if e.attached then
    { w with fs := extLinkPath d.if_index d.revision e.id :: w.fs }
  else if e.hasMapPinPath then
    { w with fs := extLinkPath d.if_index d.revision e.id ::
        progPinPath e.id :: w.fs }
  else
    { w with fs := mapPinDirPath e.id ::
        extLinkPath d.if_index d.revision e.id :: progPinPath e.id :: w.fs }

/-- `XdpDispatcher::attach_extensions` (xdp.rs lines 206-311): graft each
slot in order; a failing graft returns the error immediately, leaving the
pins of earlier slots in place. `i` is the slot index (`prog<i>`). -/
def attachExtensions (k : KernelOracle) (d : DispSt) :
    World → List ExtSlot → Nat → World × Except BpfErr Unit
  | w, [], _ => (w, .ok ())
  | w, e :: rest, i =>
    if k.extOk i then
      attachExtensions k d (applyExtPins d e w) rest (i + 1)
    else
      (w, .error (.extGraftFailed i))

/-- Whether path `p` lies strictly inside directory `dir` (its name starts
with `dir` followed by a path separator); the character-level prefix test. -/
def isUnder (dir p : String) : Bool :=
  (dir ++ "/").data.isPrefixOf p.data

/-- `XdpDispatcher::delete` (xdp.rs lines 313-339): drop the dispatcher's
sled tree, remove the per-revision pin directory and everything under it
(`fs::remove_dir_all`, an error if absent), and when `full` also remove the
stable link pin file (`fs::remove_file`, an error if absent). -/
def XdpDispatcher.delete (d : DispSt) (full : Bool) (w : World) :
    World × Except BpfErr Unit :=
  let tn := xdpTreeName d.if_index d.revision
  let w1 : World := { w with trees := w.trees.filter (fun t => !(t == tn)) }
  let rd := revDirPath d.if_index d.revision
  if rd ∈ w1.fs then
    let w2 : World := { w1 with
      fs := w1.fs.filter (fun p => !(p == rd) && !(isUnder rd p)) }
    if full then
      let sl := stableLinkPath d.if_index
      if sl ∈ w2.fs then
        ({ w2 with fs := w2.fs.filter (fun p => !(p == sl)) }, .ok ())
      else (w2, .error (.cleanupFailed sl))
    else (w2, .ok ())
  else (w1, .error (.cleanupFailed rd))

/-- `XdpDispatcher::load`, steps 4-9 (xdp.rs lines 104-157), taken after the
configuration has been computed from the (already position-sorted) program
list: pull the dispatcher image and read its bytecode, load it through
`BpfLoader` (failures return with no state change), create the per-revision
pin directory (`create_dir_all` — its own failure panics rather than
returns), record the loader and extension count, graft the extensions,
swap the hook link, and finally retire the old dispatcher with
`delete(false)`. Every error is returned as-is; no branch removes anything
that was already created. -/
def loadSteps (k : KernelOracle) (d : DispSt) (exts : List ExtSlot)
    (old : Option DispSt) (w : World) : World × Except BpfErr DispSt :=
  if k.imagePullOk then
    if k.getBytecodeOk then
      if k.bpfLoadOk then
        let d1 := d.afterBpfLoad exts.length
        let w1 := w.addPath (revDirPath d.if_index d.revision)
        match attachExtensions k d1 w1 exts 0 with
        | (w2, .error e) => (w2, .error e)
        | (w2, .ok _) =>
          match XdpDispatcher.attach k d1 w2 with
          | (w3, .error e) => (w3, .error e)
          | (w3, .ok _) =>
            match old with
            | none => (w3, .ok d1)
            | some od =>
              match XdpDispatcher.delete od false w3 with
              | (w4, .error e) => (w4, .error e)
              | (w4, .ok _) => (w4, .ok d1)
      else (w, .error .bpfLoadFailed)
    else (w, .error .bytecodeUnavailable)
  else (w, .error .bytecodeUnavailable)

/-- Whether an `Except` result is a success. -/
def isOkE {ε α : Type} : Except ε α → Bool
  | .ok _ => true
  | .error _ => false

/-- Concrete kernel oracle for the C1 scenario: everything succeeds except
the graft of slot 1. -/
def kC1 : KernelOracle := ⟨true, true, true, true, fun i => i == 0⟩

/-- The new dispatcher being built: interface 7, revision 4. -/
def dC1 : DispSt := ⟨7, "eth0", .drv, 4, 0, "xdp_dispatcher", false⟩

/-- The old dispatcher: interface 7, revision 3, two extensions. -/
def oldC1 : DispSt := ⟨7, "eth0", .drv, 3, 2, "xdp_dispatcher", false⟩

/-- Pre-call world: the old dispatcher's stable link, pin directory and one
link pin, plus its store tree. -/
def wC1 : World :=
  ⟨[stableLinkPath 7, revDirPath 7 3, extLinkPath 7 3 21], [xdpTreeName 7 3]⟩

/-- Slot for a program already attached to the old dispatcher. -/
def slotA : ExtSlot := ⟨21, true, true⟩

/-- Slot for a newly attached program. -/
def slotB : ExtSlot := ⟨22, false, false⟩

/-- A dispatcher whose loader handle is held, for the C2 witness. -/
def dC2 : DispSt := ⟨5, "eth1", .skb, 2, 1, "xdp_dispatcher", true⟩

/-- World where the stable link pin for interface 5 exists. -/
def wC2a : World := ⟨[stableLinkPath 5], []⟩

/-- World with no stable link pin. -/
def wC2b : World := ⟨[], []⟩

/-- Oracle where the kernel accepts the attach. -/
def kC2 : KernelOracle := ⟨true, true, true, true, fun _ => true⟩

/-- Oracle for the C4 scenario: all grafts succeed, the kernel refuses the
interface attach. -/
def kC4 : KernelOracle := ⟨true, true, true, false, fun _ => true⟩

/-- New dispatcher for interface 3, revision 2. -/
def dC4 : DispSt := ⟨3, "eth0", .drv, 2, 0, "xdp_dispatcher", false⟩

/-- One already-attached extension slot. -/
def extC4 : ExtSlot := ⟨21, true, true⟩

/-- Pre-call world: the old revision-1 dispatcher's pins; no stable link. -/
def wC4 : World :=
  ⟨[revDirPath 3 1, extLinkPath 3 1 21], [xdpTreeName 3 1]⟩

/-- World after the successful graft of `extC4` into revision 2. -/
def w2C4 : World :=
  ⟨[extLinkPath 3 2 21, revDirPath 3 2, revDirPath 3 1, extLinkPath 3 1 21],
   [xdpTreeName 3 1]⟩

/-- Retired dispatcher for the C6 witness: interface 7, revision 3. -/
def dC6 : DispSt := ⟨7, "eth0", .drv, 3, 1, "xdp_dispatcher", false⟩

/-- World before the retire: the revision-3 pin directory and its link pin,
the stable hook link, an unrelated program pin, the dispatcher tree and an
unrelated program tree. -/
def wC6 : World :=
  ⟨[revDirPath 7 3, extLinkPath 7 3 21, stableLinkPath 7, progPinPath 21],
   [xdpTreeName 7 3, "program_21"]⟩

/-- All-success oracle for the C6 retire-call conjunct. -/
def kC6 : KernelOracle := ⟨true, true, true, true, fun _ => true⟩

/-- The replacement dispatcher: interface 7, revision 4. -/
def d0C6 : DispSt := ⟨7, "eth0", .drv, 4, 0, "xdp_dispatcher", false⟩

/-- World after the revision-4 grafts, before the swap. -/
def w2C6 : World :=
  ⟨extLinkPath 7 4 21 :: revDirPath 7 4 :: wC6.fs, wC6.trees⟩

/-- The attach-record fields of a `command::XdpProgram` that the panic-prone
prefix of `XdpDispatcher::load` reads: the current chain position
(`get_current_position`) and the proceed-on mask (`get_proceed_on()?.mask()`). -/
structure XdpProgRec where
  current_position : Option Nat
  proceed_on_mask : Nat
  deriving DecidableEq, Repr

/-- `command::Program` as far as the `match` in `XdpDispatcher::load`
distinguishes it: the XDP variant carrying its record, and the other
variants which hit the panic arm. -/
inductive ProgramK where
  | xdp (p : XdpProgRec)
  | tc
  | tracepoint
  deriving DecidableEq, Repr

/-- The mapping at xdp.rs lines 78-84: every program must be `Program::Xdp`;
any other variant reaches the panic arm, modelled as `none`. -/
def extractXdp : List ProgramK → Option (List XdpProgRec)
  | [] => some []
  | .xdp p :: rest => (extractXdp rest).map (fun l => p :: l)
  | .tc :: _ => none
  | .tracepoint :: _ => none

/-- The comparator of the two `sort_by` calls (xdp.rs lines 87-91 and
224-228). The source unwraps both positions; a `none` position panics there,
and the same `none` is caught by `chainLoop` below, so the comparator is
totalised with a default here without losing any panic case. -/
def posLE (a b : XdpProgRec) : Prop :=
  a.current_position.getD 0 ≤ b.current_position.getD 0

instance : DecidableRel posLE := fun _ _ => Nat.decLe _ _

/-- The `sort_by` over chain positions (a stable sort, like Rust's). -/
def sortExts (l : List XdpProgRec) : List XdpProgRec :=
  l.insertionSort posLE

/-- The loop at xdp.rs lines 92-94:
`chain_call_actions[p.get_current_position()?.unwrap()] = ...mask()` over a
10-element array. A `none` position (the `unwrap`) or a position ≥ 10 (the
array indexing) panics, modelled as `none`. -/
def chainLoop : List XdpProgRec → List Nat → Option (List Nat)
  | [], acts => some acts
  | p :: rest, acts =>
    match p.current_position with
    | none => none
    | some pos =>
      if pos < 10 then chainLoop rest (acts.set pos p.proceed_on_mask)
      else none

/-- The panic-prone prefix of `XdpDispatcher::load` (xdp.rs lines 78-102):
extract the XDP programs, sort by position, fill the chain-call-action
array, and return the config inputs `(num_extensions, chain_call_actions)`;
`none` means a panic branch was reached. -/
def buildConfig (progs : List ProgramK) : Option (Nat × List Nat) :=
  (extractXdp progs).bind (fun exts =>
    (chainLoop (sortExts exts) (List.replicate 10 0)).map
      (fun acts => (exts.length, acts)))

end Bpfman

namespace BpfdSrv

/-- Error type standing for `BpfdError` (`errors.rs` is outside the sources;
the constructors mirror the variants `serve` builds and the spec's §7
error kinds). -/
inductive BpfdError where
  | invalidInterface
  | invalidProgramType (kind : String)
  | other (msg : String)
  deriving DecidableEq, Repr

/-- `command::ProgramType`, as far as the handler's matches distinguish it:
XDP, TC, Tracepoint, and a stand-in for any further kind reaching the
catch-all arms. -/
inductive ProgramType where
  | xdp
  | tc
  | tracepoint
  | other
  deriving DecidableEq, Repr

/-- `program_type.to_string()` for the InvalidProgramType error payload. -/
def ProgramType.str : ProgramType → String
  | .xdp => "xdp"
  | .tc => "tc"
  | .tracepoint => "tracepoint"
  | .other => "other"

/-- `command::ProceedOn`: the list of return-code values named by the
client (a newtype over a vector in the source). -/
structure ProceedOn where
  codes : List Int
  deriving DecidableEq, Repr

/-- Modelled from the spec: the XDP default proceed-on mask
(`ProceedOn::default_xdp`, outside the sources) — pass and
dispatcher-return. -/
def ProceedOn.default_xdp : ProceedOn := ⟨[2, 31]⟩

/-- Modelled from the spec: the TC default proceed-on mask
(`ProceedOn::default_tc`, outside the sources). -/
def ProceedOn.default_tc : ProceedOn := ⟨[3, 30]⟩

/-- TC attach direction. -/
inductive Direction where
  | ingress
  | egress
  deriving DecidableEq, Repr

/-- The `NetworkMultiAttach` attach record of an incoming Load command
(lib.rs lines 115-121). -/
structure NetworkMultiAttach where
  iface : String
  priority : Int
  proceed_on : ProceedOn
  direction : Option Direction
  position : Int
  deriving DecidableEq, Repr

/-- The program metadata assembled by `ProgramData::new` (in `command.rs`,
outside the sources): origin, entry symbol, global data and owner. -/
structure ProgramData where
  location : String
  section_name : String
  global_data : List (String × List Nat)
  username : String
  deriving DecidableEq, Repr

/-- `command::Metadata` (priority, name, attached flag). -/
structure Metadata where
  priority : Int
  name : String
  attached : Bool
  deriving DecidableEq, Repr

/-- `command::NetworkMultiAttachInfo` as `serve` constructs it. -/
structure NetworkMultiAttachInfo where
  if_index : Nat
  current_position : Option Nat
  metadata : Metadata
  proceed_on : ProceedOn
  if_name : String
  deriving DecidableEq, Repr

/-- `command::XdpProgram`. -/
structure XdpProgram where
  data : ProgramData
  info : NetworkMultiAttachInfo
  deriving DecidableEq, Repr

/-- `command::TcProgram`. -/
structure TcProgram where
  data : ProgramData
  info : NetworkMultiAttachInfo
  direction : Direction
  deriving DecidableEq, Repr

/-- `command::TracepointProgram` (attach record: category/name). -/
structure TracepointProgram where
  data : ProgramData
  tracepoint : String
  deriving DecidableEq, Repr

/-- `command::Program`, the tagged union over program kinds. -/
inductive Program where
  | xdp (p : XdpProgram)
  | tc (p : TcProgram)
  | tracepoint (p : TracepointProgram)
  deriving DecidableEq, Repr

/-- The manager's program index, as far as the handler observes it. -/
abbrev Registry := List (Nat × Program)

/-- Observable side effects of the Load handler: the TC proceed-on warning
(lib.rs line 138) and `set_map_permissions` on success (lib.rs lines
196-200). -/
inductive Effect where
  | warnTcProceedOn
  | setMapPermissions (dir : String)
  deriving DecidableEq, Repr

/-- Modelled from the spec: `RTDIR_FS_MAPS` (outside the sources),
`<runtime>/fs/maps`. -/
def RTDIR_FS_MAPS : String := "/run/bpfd/fs/maps"

/-- The handler's collaborators: `get_ifindex` (`none` models the Err
case), `ProgramData::new` (fallible), and `BpfManager::add_program`
(in `bpf.rs`, outside the sources), returning the updated manager state and
the allocated UUID or an error. -/
structure Env where
  get_ifindex : String → Option Nat
  mkProgramData : String → String → List (String × List Nat) → String →
    Except BpfdError ProgramData
  addProgram : Registry → Program → Registry × Except BpfdError Nat

/-- The proceed-on normalization of lib.rs lines 126-143: an empty list is
replaced by the kind's default; a non-empty list is passed through, with a
warning logged when the kind is TC. -/
def normalizeProceedOn (pt : ProgramType) (p : ProceedOn) :
    ProceedOn × List Effect :=
  if p.codes.isEmpty then
    (match pt with
     | .xdp => ProceedOn.default_xdp
     | .tc => ProceedOn.default_tc
     | _ => p, [])
  else
    match pt with
    | .xdp => (p, [])
    | .tc => (p, [.warnTcProceedOn])
    | _ => (p, [])

/-- The fields of a `Command::Load` carrying a `NetworkMultiAttach` attach
type (lib.rs lines 109-123). -/
structure LoadNetReq where
  location : String
  section_name : String
  global_data : List (String × List Nat)
  program_type : ProgramType
  nma : NetworkMultiAttach
  username : String
  deriving DecidableEq, Repr

/-- The post-processing of lib.rs lines 196-203: on success the program's
map directory permissions are adjusted before the reply is sent. -/
def finish (r : Registry × Except BpfdError Nat) (effs : List Effect) :
    Registry × List Effect × Except BpfdError Nat :=
  match r.2 with
  | .ok uuid =>
    (r.1,
     effs ++ [.setMapPermissions (RTDIR_FS_MAPS ++ "/" ++ toString uuid)],
     .ok uuid)
  | .error e => (r.1, effs, .error e)

/-- The `Command::Load` / `NetworkMultiAttach` arm of the serve loop
(lib.rs lines 109-204): resolve the interface (replying InvalidInterface on
failure, consulting nothing else), normalize proceed-on, build the program
record for XDP or TC (any other kind replies InvalidProgramType), and hand
it to `add_program`. The result carries the registry after the command, the
emitted effects and the reply; `none` models the `direction.unwrap()` panic
for a TC program without a direction. The request's `position` field is
matched with `position: _` and never read. -/
def handleLoadNet (env : Env) (st : Registry) (req : LoadNetReq) :
    Option (Registry × List Effect × Except BpfdError Nat) :=
  match env.get_ifindex req.nma.iface with
  | some if_index =>
    let np := normalizeProceedOn req.program_type req.nma.proceed_on
    match env.mkProgramData req.location req.section_name req.global_data
        req.username with
    | .ok prog_data =>
      match req.program_type with
      | .xdp =>
        some (finish (env.addProgram st (.xdp ⟨prog_data,
          ⟨if_index, none, ⟨req.nma.priority, prog_data.section_name, false⟩,
           np.1, req.nma.iface⟩⟩)) np.2)
      | .tc =>
        match req.nma.direction with
        | some dir =>
          some (finish (env.addProgram st (.tc ⟨prog_data,
            ⟨if_index, none, ⟨req.nma.priority, prog_data.section_name, false⟩,
             np.1, req.nma.iface⟩, dir⟩)) np.2)
        | none => none
      | _ =>
        some (st, np.2, .error (.invalidProgramType req.program_type.str))
    | .error e => some (st, np.2, .error e)
  | none => some (st, [], .error .invalidInterface)

/-- The static-program loop in `serve` (lib.rs lines 96-104):
`let uuid = bpf_manager.add_program(prog)?` — the `?` propagates the first
failure out of `serve`. -/
def loadStatic (add : Registry → Program → Registry × Except BpfdError Nat) :
    Registry → List Program → Registry × Except BpfdError (List Nat)
  | st, [] => (st, .ok [])
  | st, p :: rest =>
    match add st p with
    | (st', .ok uuid) =>
      match loadStatic add st' rest with
      | (st'', .ok us) => (st'', .ok (uuid :: us))
      | (st'', .error e) => (st'', .error e)
    | (st', .error e) => (st', .error e)

/-- Whether the daemon reaches the command-receiving loop. -/
inductive StartupOutcome where
  | aborted (e : BpfdError) (st : Registry)
  | serving (st : Registry)
  deriving DecidableEq, Repr

/-- Startup after the registry rebuild (lib.rs lines 96-107): load the
static programs, then — only if none failed — enter the command loop. -/
def serveStartup (add : Registry → Program → Registry × Except BpfdError Nat)
    (st0 : Registry) (statics : List Program) : StartupOutcome :=
  match loadStatic add st0 statics with
  | (st, .error e) => .aborted e st
  | (st, .ok _) => .serving st

/-- A static program whose load the oracle rejects. -/
def badProg : Program :=
  .xdp ⟨⟨"file:///bad.o", "bad", [], "root"⟩,
    ⟨1, none, ⟨50, "bad", false⟩, ⟨[]⟩, "eth0"⟩⟩

/-- A static program whose load the oracle accepts. -/
def goodProg : Program :=
  .xdp ⟨⟨"file:///good.o", "good", [], "root"⟩,
    ⟨1, none, ⟨50, "good", false⟩, ⟨[]⟩, "eth0"⟩⟩

/-- An `add_program` oracle that fails on `badProg` and accepts others. -/
def addC3 (st : Registry) (p : Program) :
    Registry × Except BpfdError Nat :=
  if p == badProg then (st, .error (.other "load failed"))
  else ((0, p) :: st, .ok 0)

/-- Environment whose interface resolution always fails. -/
def envC7 : Env :=
  ⟨fun _ => none,
   fun l s g u => .ok ⟨l, s, g, u⟩,
   fun st p => ((0, p) :: st, .ok 0)⟩

/-- A Load request naming an interface that does not resolve. -/
def reqC7 : LoadNetReq :=
  ⟨"image://repo/prog", "xdp_pass", [], .xdp,
   ⟨"does_not_exist", 50, ⟨[]⟩, none, 0⟩, "alice"⟩

/-- Environment for the C5 witness: eth0 resolves, program data builds,
`add_program` allocates UUID 42. -/
def envC5 : Env :=
  ⟨fun s => if s == "eth0" then some 2 else none,
   fun l s g u => .ok ⟨l, s, g, u⟩,
   fun st p => ((42, p) :: st, .ok 42)⟩

end BpfdSrv

namespace Bpfman

theorem sled_get_insert (t : Tree) (k : String) (v : List Nat) :
    sled_get (sled_insert t k v) k = .ok v := by
  simp [sled_get, sled_insert, List.find?]

theorem bytes_to_u32_round (n : Nat) (h : n < 4294967296) :
    bytes_to_u32 (u32_to_ne_bytes n) = n := by
  simp only [u32_to_ne_bytes, bytes_to_u32]
  omega

theorem bytes_to_usize_round (n : Nat) (h : n < 18446744073709551616) :
    bytes_to_usize (usize_to_ne_bytes n) = n := by
  simp only [usize_to_ne_bytes, bytes_to_usize]
  omega

theorem bytes_to_string_round (s : String) :
    bytes_to_string (str_to_bytes s) = s := by
  simp [bytes_to_string, str_to_bytes, List.map_map, Function.comp_def, Char.ofNat_toNat]

theorem tryFrom_toU32 (m : XdpMode) : XdpMode.tryFrom m.toU32 = .ok m := by
  cases m <;> rfl

theorem applyExtPins_trees (d : DispSt) (e : ExtSlot) (w : World) :
    (applyExtPins d e w).trees = w.trees := by
  by_cases h1 : e.attached = true <;> by_cases h2 : e.hasMapPinPath = true <;>
    simp [applyExtPins, h1, h2]

theorem applyExtPins_fs_mem (d : DispSt) (e : ExtSlot) (w : World) (p : String)
    (hp : p ∈ w.fs) : p ∈ (applyExtPins d e w).fs := by
  by_cases h1 : e.attached = true <;> by_cases h2 : e.hasMapPinPath = true <;>
    simp [applyExtPins, h1, h2, hp]

/-- `attach_extensions` never removes a pin and never touches the store:
whatever world it is given only grows. -/
theorem attachExtensions_mono (k : KernelOracle) (d : DispSt) :
    ∀ (exts : List ExtSlot) (w : World) (i : Nat),
      (∀ p ∈ w.fs, p ∈ (attachExtensions k d w exts i).1.fs)
      ∧ (attachExtensions k d w exts i).1.trees = w.trees := by
  intro exts
  induction exts with
  | nil =>
    intro w i
    exact ⟨fun p hp => by simpa [attachExtensions] using hp,
      by simp [attachExtensions]⟩
  | cons e rest ih =>
    intro w i
    by_cases hk : k.extOk i = true
    · have hrec := ih (applyExtPins d e w) (i + 1)
      simp only [attachExtensions, hk, if_true]
      exact ⟨fun p hp => hrec.1 p (applyExtPins_fs_mem d e w p hp),
        by rw [hrec.2, applyExtPins_trees]⟩
    · have hk' : k.extOk i = false := by simpa using hk
      simp [attachExtensions, hk']

/-- A graft that fails at any slot makes `attach_extensions` return an
error. -/
theorem attachExtensions_not_ok (k : KernelOracle) (d : DispSt) :
    ∀ (exts : List ExtSlot) (w : World) (i : Nat),
      (∃ j, j < exts.length ∧ k.extOk (i + j) = false) →
      isOkE (attachExtensions k d w exts i).2 = false := by
  intro exts
  induction exts with
  | nil =>
    intro w i h
    obtain ⟨j, hj, _⟩ := h
    simp at hj
  | cons e rest ih =>
    intro w i h
    by_cases hk : k.extOk i = true
    · obtain ⟨j, hj, hval⟩ := h
      match j, hj, hval with
      | 0, hj, hval => simp at hval; rw [hval] at hk; cases hk
      | j' + 1, hj, hval =>
        simp only [attachExtensions, hk, if_true]
        refine ih (applyExtPins d e w) (i + 1) ⟨j', ?_, ?_⟩
        · simpa using Nat.lt_of_succ_lt_succ hj
        · have : i + 1 + j' = i + (j' + 1) := by omega
          rw [this]; exact hval
    · have hk' : k.extOk i = false := by simpa using hk
      simp [attachExtensions, hk', isOkE]

/-- C1: the claim says a failure in steps 5-7 tears the half-built dispatcher
down (pin directory and transient link pins removed). In the source no error
branch of `XdpDispatcher::load` or `attach_extensions` removes anything: the
error is returned, the old dispatcher is left serving (its pins and tree are
untouched, `delete` is only reached on success), but the new per-revision
pin directory and any link pins already grafted remain on disk. This theorem
proves the amended claim: on a step 5-7 failure the operation returns the
failure, nothing that existed before the call is removed, the store is
unchanged, and — whenever the dispatcher bytecode load had succeeded — the
new pin directory is still present. -/
theorem C1_failed_mutation_keeps_halfbuilt_state (k : KernelOracle)
    (d : DispSt) (exts : List ExtSlot) (old : Option DispSt) (w : World)
    (hpull : k.imagePullOk = true) (hbyte : k.getBytecodeOk = true)
    (hfail : k.bpfLoadOk = false ∨ ∃ j, j < exts.length ∧ k.extOk j = false) :
    isOkE (loadSteps k d exts old w).2 = false
    ∧ (∀ p ∈ w.fs, p ∈ (loadSteps k d exts old w).1.fs)
    ∧ (loadSteps k d exts old w).1.trees = w.trees
    ∧ (k.bpfLoadOk = true →
        revDirPath d.if_index d.revision ∈ (loadSteps k d exts old w).1.fs) := by
  by_cases hb : k.bpfLoadOk = true
  · have hex : ∃ j, j < exts.length ∧ k.extOk j = false := by
      rcases hfail with h | h
      · rw [hb] at h; cases h
      · exact h
    have hnot : isOkE (attachExtensions k (d.afterBpfLoad exts.length)
        (w.addPath (revDirPath d.if_index d.revision)) exts 0).2 = false := by
      apply attachExtensions_not_ok
      obtain ⟨j, hj, hv⟩ := hex
      exact ⟨j, hj, by simpa using hv⟩
    rcases hAE : attachExtensions k (d.afterBpfLoad exts.length)
        (w.addPath (revDirPath d.if_index d.revision)) exts 0 with ⟨w2, r2⟩
    rw [hAE] at hnot
    have hmono := attachExtensions_mono k (d.afterBpfLoad exts.length) exts
        (w.addPath (revDirPath d.if_index d.revision)) 0
    rw [hAE] at hmono
    cases r2 with
    | ok u => simp [isOkE] at hnot
    | error e =>
      simp only [loadSteps, hpull, hbyte, hb, if_true, hAE]
      refine ⟨rfl, ?_, ?_, ?_⟩
      · intro p hp
        exact hmono.1 p (by simp [World.addPath, hp])
      · rw [hmono.2]; rfl
      · intro _
        exact hmono.1 (revDirPath d.if_index d.revision)
          (by simp [World.addPath])
  · have hb' : k.bpfLoadOk = false := by simpa using hb
    simp [loadSteps, hpull, hbyte, hb', isOkE]

/-- C1 counterexample: with the graft of slot 1 failing (a step-7 failure),
`load` returns the error but the half-built dispatcher is NOT torn down —
the new per-revision pin directory `dispatcher_7_4` and the transient link
pin `link_21` grafted before the failure are still present, contradicting
the claim that they are removed. -/
theorem C1_counterexample :
    (loadSteps kC1 dC1 [slotA, slotB] (some oldC1) wC1).2
        = Except.error (BpfErr.extGraftFailed 1)
    ∧ revDirPath 7 4 ∈ (loadSteps kC1 dC1 [slotA, slotB] (some oldC1) wC1).1.fs
    ∧ extLinkPath 7 4 21
        ∈ (loadSteps kC1 dC1 [slotA, slotB] (some oldC1) wC1).1.fs := by
  refine ⟨rfl, ?_, ?_⟩ <;> decide

/-- C1 witness: the amended theorem at the concrete failing-graft run — the
failure is returned, every pre-call pin (here the old dispatcher's link pin)
survives, the store is unchanged, and the new pin directory remains. -/
theorem C1_witness :
    isOkE (loadSteps kC1 dC1 [slotA, slotB] (some oldC1) wC1).2 = false
    ∧ extLinkPath 7 3 21 ∈ (loadSteps kC1 dC1 [slotA, slotB] (some oldC1) wC1).1.fs
    ∧ (loadSteps kC1 dC1 [slotA, slotB] (some oldC1) wC1).1.trees = wC1.trees
    ∧ revDirPath 7 4 ∈ (loadSteps kC1 dC1 [slotA, slotB] (some oldC1) wC1).1.fs := by
  have h := C1_failed_mutation_keeps_halfbuilt_state kC1 dC1 [slotA, slotB]
    (some oldC1) wC1 rfl rfl (Or.inr ⟨1, by decide, by decide⟩)
  exact ⟨h.1, h.2.1 (extLinkPath 7 3 21) (by decide), h.2.2.1, h.2.2.2 rfl⟩

/-- C2: the hook swap. If the stable link pin
`dispatcher_<ifindex>_link` exists, `attach` reopens it and attaches the
new dispatcher to that same kernel link — the world is returned unchanged,
so no new stable pin is created; otherwise the dispatcher is attached to
the interface with the configured mode flags and its link is pinned at the
stable path. -/
theorem C2_attach_reuses_or_pins (k : KernelOracle) (d : DispSt) (w : World)
    (hl : d.loaderPresent = true) :
    (stableLinkPath d.if_index ∈ w.fs →
      XdpDispatcher.attach k d w
        = (w, .ok (.reusedLink (stableLinkPath d.if_index))))
    ∧ (stableLinkPath d.if_index ∉ w.fs → k.xdpAttachOk = true →
      XdpDispatcher.attach k d w
        = (w.addPath (stableLinkPath d.if_index),
           .ok (.attachedNew d.mode.asFlags (stableLinkPath d.if_index)))) := by
  constructor
  · intro hmem
    simp [XdpDispatcher.attach, hl, hmem]
  · intro hmem hok
    simp [XdpDispatcher.attach, hl, hmem, hok]

/-- C2 witness: both branches at concrete inputs — reuse without a new pin
when the stable pin exists, attach with skb-mode flags and pin the link
otherwise. -/
theorem C2_witness :
    XdpDispatcher.attach kC2 dC2 wC2a
        = (wC2a, .ok (.reusedLink (stableLinkPath 5)))
    ∧ XdpDispatcher.attach kC2 dC2 wC2b
        = (wC2b.addPath (stableLinkPath 5),
           .ok (.attachedNew 2 (stableLinkPath 5))) := by
  refine ⟨(C2_attach_reuses_or_pins kC2 dC2 wC2a rfl).1 (by decide), ?_⟩
  exact (C2_attach_reuses_or_pins kC2 dC2 wC2b rfl).2 (by decide) rfl

/-- C4: the claim says that on attach failure the new per-revision pin
directory is destroyed. In the source the attach error is merely propagated
(`self.attach()?`) and no branch removes the directory. This theorem proves
the amended claim: when no stable link pin exists and the kernel refuses the
attach, `load` returns the attach failure, all prior state survives and the
store is unchanged — but the new per-revision pin directory is left in
place, not destroyed. `w2` is the world after the successful extension
grafts. -/
theorem C4_attach_failure_keeps_revdir (k : KernelOracle) (d : DispSt)
    (exts : List ExtSlot) (old : Option DispSt) (w w2 : World)
    (hpull : k.imagePullOk = true) (hbyte : k.getBytecodeOk = true)
    (hload : k.bpfLoadOk = true)
    (hAE : attachExtensions k (d.afterBpfLoad exts.length)
        (w.addPath (revDirPath d.if_index d.revision)) exts 0
        = (w2, Except.ok ()))
    (hsl : stableLinkPath d.if_index ∉ w2.fs)
    (hatt : k.xdpAttachOk = false) :
    loadSteps k d exts old w = (w2, .error (.attachFailed d.if_name))
    ∧ revDirPath d.if_index d.revision ∈ w2.fs
    ∧ (∀ p ∈ w.fs, p ∈ w2.fs)
    ∧ w2.trees = w.trees := by
  have hmono := attachExtensions_mono k (d.afterBpfLoad exts.length) exts
      (w.addPath (revDirPath d.if_index d.revision)) 0
  rw [hAE] at hmono
  refine ⟨?_, ?_, ?_, ?_⟩
  · simp only [loadSteps, hpull, hbyte, hload, if_true, hAE]
    simp [XdpDispatcher.attach, DispSt.afterBpfLoad, hsl, hatt]
  · exact hmono.1 (revDirPath d.if_index d.revision) (by simp [World.addPath])
  · intro p hp
    exact hmono.1 p (by simp [World.addPath, hp])
  · rw [hmono.2]; rfl

/-- C4 counterexample: with no stable pin and the kernel refusing the
attach, `load` returns the attach failure but the new per-revision pin
directory `dispatcher_3_2` is still present — it is not destroyed as the
claim states. -/
theorem C4_counterexample :
    (loadSteps kC4 dC4 [extC4] none wC4).2
        = Except.error (BpfErr.attachFailed "eth0")
    ∧ revDirPath 3 2 ∈ (loadSteps kC4 dC4 [extC4] none wC4).1.fs := by
  refine ⟨rfl, ?_⟩; decide

/-- C4 witness: the amended theorem at the concrete refused-attach run. -/
theorem C4_witness :
    loadSteps kC4 dC4 [extC4] none wC4
        = (w2C4, .error (.attachFailed "eth0"))
    ∧ revDirPath 3 2 ∈ w2C4.fs
    ∧ revDirPath 3 1 ∈ w2C4.fs
    ∧ w2C4.trees = wC4.trees := by
  have h := C4_attach_failure_keeps_revdir kC4 dC4 [extC4] none wC4 w2C4
    rfl rfl rfl rfl (by decide) rfl
  exact ⟨h.1, h.2.1, h.2.2.1 (revDirPath 3 1) (by decide), h.2.2.2⟩

/-- C6: retiring a dispatcher (`delete(false)`, as `load` invokes on the old
dispatcher after a successful swap) removes exactly the per-revision pin
directory with its contents and drops the dispatcher's store sub-tree —
every other pin, in particular the stable hook-link pin, survives. Full
teardown (`delete(true)`) additionally removes exactly the stable hook-link
pin file. The last conjunct shows the retire call itself: on a fully
successful `load` over an existing stable link, the result is literally the
`delete(false)` of the old dispatcher applied to the post-swap world. -/
theorem C6_retire_and_teardown (d : DispSt) (w : World)
    (hrd : revDirPath d.if_index d.revision ∈ w.fs)
    (hsl : stableLinkPath d.if_index ∈ w.fs)
    (hne : stableLinkPath d.if_index ≠ revDirPath d.if_index d.revision)
    (hnu : isUnder (revDirPath d.if_index d.revision)
        (stableLinkPath d.if_index) = false) :
    (XdpDispatcher.delete d false w).2 = .ok ()
    ∧ (∀ p, p ∈ (XdpDispatcher.delete d false w).1.fs ↔
        p ∈ w.fs ∧ p ≠ revDirPath d.if_index d.revision
          ∧ isUnder (revDirPath d.if_index d.revision) p = false)
    ∧ (∀ t, t ∈ (XdpDispatcher.delete d false w).1.trees ↔
        t ∈ w.trees ∧ t ≠ xdpTreeName d.if_index d.revision)
    ∧ stableLinkPath d.if_index ∈ (XdpDispatcher.delete d false w).1.fs
    ∧ (XdpDispatcher.delete d true w).2 = .ok ()
    ∧ (∀ p, p ∈ (XdpDispatcher.delete d true w).1.fs ↔
        p ∈ w.fs ∧ p ≠ revDirPath d.if_index d.revision
          ∧ isUnder (revDirPath d.if_index d.revision) p = false
          ∧ p ≠ stableLinkPath d.if_index)
    ∧ stableLinkPath d.if_index ∉ (XdpDispatcher.delete d true w).1.fs
    ∧ (∀ (k : KernelOracle) (d0 : DispSt) (exts : List ExtSlot) (w0 w2 : World),
        k.imagePullOk = true → k.getBytecodeOk = true → k.bpfLoadOk = true →
        attachExtensions k (d0.afterBpfLoad exts.length)
            (w0.addPath (revDirPath d0.if_index d0.revision)) exts 0
          = (w2, Except.ok ()) →
        stableLinkPath d0.if_index ∈ w2.fs →
        (XdpDispatcher.delete d false w2).2 = .ok () →
        loadSteps k d0 exts (some d) w0
          = ((XdpDispatcher.delete d false w2).1,
             .ok (d0.afterBpfLoad exts.length))) := by
  have hpred : (!(stableLinkPath d.if_index
        == revDirPath d.if_index d.revision)
      && !(isUnder (revDirPath d.if_index d.revision)
            (stableLinkPath d.if_index))) = true := by
    simp [hne, hnu]
  have hslw2 : stableLinkPath d.if_index
      ∈ w.fs.filter (fun p => !(p == revDirPath d.if_index d.revision)
          && !(isUnder (revDirPath d.if_index d.revision) p)) :=
    List.mem_filter.mpr ⟨hsl, hpred⟩
  have h2 : ∀ p, p ∈ (XdpDispatcher.delete d false w).1.fs ↔
      p ∈ w.fs ∧ p ≠ revDirPath d.if_index d.revision
        ∧ isUnder (revDirPath d.if_index d.revision) p = false := by
    intro p
    simp [XdpDispatcher.delete, hrd, List.mem_filter, and_assoc]
  have h3 : ∀ t, t ∈ (XdpDispatcher.delete d false w).1.trees ↔
      t ∈ w.trees ∧ t ≠ xdpTreeName d.if_index d.revision := by
    intro t
    simp [XdpDispatcher.delete, hrd, List.mem_filter]
  have h6 : ∀ p, p ∈ (XdpDispatcher.delete d true w).1.fs ↔
      p ∈ w.fs ∧ p ≠ revDirPath d.if_index d.revision
        ∧ isUnder (revDirPath d.if_index d.revision) p = false
        ∧ p ≠ stableLinkPath d.if_index := by
    intro p
    simp only [XdpDispatcher.delete, hrd, hslw2, if_true, List.mem_filter,
      Bool.and_eq_true, Bool.not_eq_true', beq_eq_false_iff_ne, ne_eq,
      and_assoc, if_pos]
  refine ⟨by simp [XdpDispatcher.delete, hrd], h2, h3,
    (h2 _).mpr ⟨hsl, hne, hnu⟩,
    by simp [XdpDispatcher.delete, hrd, hslw2], h6,
    fun hm => ((h6 _).mp hm).2.2.2 rfl, ?_⟩
  intro k d0 exts w0 w2 hpull hbyte hload hAE hsl2 hdelok
  simp only [loadSteps, hpull, hbyte, hload, if_true, hAE]
  have hatt : XdpDispatcher.attach k (d0.afterBpfLoad exts.length) w2
      = (w2, .ok (.reusedLink (stableLinkPath d0.if_index))) := by
    simp [XdpDispatcher.attach, DispSt.afterBpfLoad, hsl2]
  rcases hdel : XdpDispatcher.delete d false w2 with ⟨w4, r4⟩
  rw [hdel] at hdelok
  simp only at hdelok
  subst hdelok
  simp [hatt, hdel]

/-- C6 witness: the theorem at a concrete world — retire keeps the stable
link and the unrelated pin and tree, drops exactly the revision directory,
its link pin and the dispatcher tree; full teardown also drops the stable
link; and a fully successful `load` ends in the `delete(false)` of the old
dispatcher. -/
theorem C6_witness :
    (XdpDispatcher.delete dC6 false wC6).2 = .ok ()
    ∧ stableLinkPath 7 ∈ (XdpDispatcher.delete dC6 false wC6).1.fs
    ∧ progPinPath 21 ∈ (XdpDispatcher.delete dC6 false wC6).1.fs
    ∧ extLinkPath 7 3 21 ∉ (XdpDispatcher.delete dC6 false wC6).1.fs
    ∧ xdpTreeName 7 3 ∉ (XdpDispatcher.delete dC6 false wC6).1.trees
    ∧ "program_21" ∈ (XdpDispatcher.delete dC6 false wC6).1.trees
    ∧ (XdpDispatcher.delete dC6 true wC6).2 = .ok ()
    ∧ stableLinkPath 7 ∉ (XdpDispatcher.delete dC6 true wC6).1.fs
    ∧ loadSteps kC6 d0C6 [⟨21, true, true⟩] (some dC6) wC6
        = ((XdpDispatcher.delete dC6 false w2C6).1,
           .ok (d0C6.afterBpfLoad 1)) := by
  have h := C6_retire_and_teardown dC6 wC6 (by decide) (by decide)
    (by decide) (by decide)
  refine ⟨h.1, h.2.2.2.1, (h.2.1 _).mpr ⟨by decide, by decide, by decide⟩,
    ?_, ?_, (h.2.2.1 _).mpr ⟨by decide, by decide⟩,
    h.2.2.2.2.1, h.2.2.2.2.2.2.1, ?_⟩
  · intro hm
    exact absurd ((h.2.1 _).mp hm).2.2 (by decide)
  · intro hm
    exact ((h.2.2.1 _).mp hm).2 rfl
  · exact h.2.2.2.2.2.2.2 kC6 d0C6 [⟨21, true, true⟩] wC6 w2C6
      rfl rfl rfl rfl (by decide) rfl

/-- C10: every setter of the dispatcher's store sub-tree followed by the
matching getter returns the value just set — revision, ifindex, ifname,
mode, num_extensions and program_name round-trip through their
native-endian integer or byte-string encodings (the integer bounds are the
u32 / usize ranges of the stored types). -/
theorem C10_set_get_round_trip (t : Tree) (r i n : Nat) (s pn : String)
    (m : XdpMode) (hr : r < 4294967296) (hi : i < 4294967296)
    (hn : n < 18446744073709551616) :
    get_revision (set_revision t r) = .ok r
    ∧ get_ifindex (set_ifindex t i) = .ok i
    ∧ get_ifname (set_ifname t s) = .ok s
    ∧ get_mode (set_mode t m) = .ok m
    ∧ get_num_extensions (set_num_extensions t n) = .ok n
    ∧ get_program_name (set_program_name t pn) = .ok pn := by
  refine ⟨?_, ?_, ?_, ?_, ?_, ?_⟩
  · simp [get_revision, set_revision, sled_get_insert, Except.map,
      bytes_to_u32_round r hr]
  · simp [get_ifindex, set_ifindex, sled_get_insert, Except.map,
      bytes_to_u32_round i hi]
  · simp [get_ifname, set_ifname, sled_get_insert, Except.map,
      bytes_to_string_round]
  · have hm : m.toU32 < 4294967296 := by cases m <;> decide
    simp [get_mode, set_mode, sled_get_insert, Except.map,
      bytes_to_u32_round m.toU32 hm, tryFrom_toU32]
  · simp [get_num_extensions, set_num_extensions, sled_get_insert,
      Except.map, bytes_to_usize_round n hn]
  · simp [get_program_name, set_program_name, sled_get_insert, Except.map,
      bytes_to_string_round]

/-- C10 witness: the round trips at concrete values on the empty tree. -/
theorem C10_witness :
    get_revision (set_revision ([] : Tree) 5) = .ok 5
    ∧ get_ifindex (set_ifindex ([] : Tree) 7) = .ok 7
    ∧ get_ifname (set_ifname ([] : Tree) "eth0") = .ok "eth0"
    ∧ get_mode (set_mode ([] : Tree) XdpMode.hw) = .ok XdpMode.hw
    ∧ get_num_extensions (set_num_extensions ([] : Tree) 3) = .ok 3
    ∧ get_program_name (set_program_name ([] : Tree) "xdp_dispatcher")
        = .ok "xdp_dispatcher" :=
  C10_set_get_round_trip ([] : Tree) 5 7 3 "eth0" "xdp_dispatcher"
    XdpMode.hw (by decide) (by decide) (by decide)

theorem extractXdp_mem : ∀ (l : List ProgramK) (exts : List XdpProgRec),
    extractXdp l = some exts → ∀ x, (x ∈ exts ↔ ProgramK.xdp x ∈ l) := by
  intro l
  induction l with
  | nil =>
    intro exts h x
    simp only [extractXdp, Option.some.injEq] at h
    subst h
    simp
  | cons q rest ih =>
    intro exts h x
    cases q with
    | xdp p =>
      cases hrest : extractXdp rest with
      | none => simp [extractXdp, hrest] at h
      | some exts' =>
        simp only [extractXdp, hrest, Option.map_some', Option.some.injEq] at h
        subst h
        simp [ih exts' hrest x]
    | tc => simp [extractXdp] at h
    | tracepoint => simp [extractXdp] at h

theorem extractXdp_isSome : ∀ l : List ProgramK,
    (extractXdp l).isSome = true ↔ ∀ q ∈ l, ∃ x, q = ProgramK.xdp x := by
  intro l
  induction l with
  | nil => simp [extractXdp]
  | cons q rest ih =>
    cases q with
    | xdp p => simp [extractXdp, Option.isSome_map', ih]
    | tc => simp [extractXdp]
    | tracepoint => simp [extractXdp]

theorem chainLoop_isSome : ∀ (l : List XdpProgRec) (acts : List Nat),
    (chainLoop l acts).isSome = true
      ↔ ∀ x ∈ l, ∃ pos, x.current_position = some pos ∧ pos < 10 := by
  intro l
  induction l with
  | nil => intro acts; simp [chainLoop]
  | cons p rest ih =>
    intro acts
    cases hp : p.current_position with
    | none => simp [chainLoop, hp]
    | some pos =>
      by_cases hlt : pos < 10
      · simp [chainLoop, hp, hlt, ih]
      · simp [chainLoop, hp, hlt]

/-- C9: the panic branches of `XdpDispatcher::load` and `attach_extensions`
— the non-XDP match arm, the `unwrap`s of `get_current_position`, and the
indexing of the 10-element `chain_call_actions` array — are unreachable
exactly when every program passed in is an XDP program whose current chain
position is `Some p` with `p < 10`; on any input violating this, a panic
branch is reached (`buildConfig` is `none`). -/
theorem C9_panic_free_iff (progs : List ProgramK) :
    (buildConfig progs).isSome = true
      ↔ ∀ q ∈ progs, ∃ x pos, q = ProgramK.xdp x
          ∧ x.current_position = some pos ∧ pos < 10 := by
  constructor
  · intro h q hq
    cases hex : extractXdp progs with
    | none => rw [buildConfig, hex] at h; simp at h
    | some exts =>
      have hall : ∀ q' ∈ progs, ∃ x, q' = ProgramK.xdp x :=
        (extractXdp_isSome progs).mp (by rw [hex]; rfl)
      obtain ⟨x, rfl⟩ := hall q hq
      have hx : x ∈ exts := (extractXdp_mem progs exts hex x).mpr hq
      have hx' : x ∈ sortExts exts :=
        (List.Perm.mem_iff (List.perm_insertionSort posLE exts)).mpr hx
      cases hcl : chainLoop (sortExts exts) (List.replicate 10 0) with
      | none =>
        rw [buildConfig, hex] at h
        simp only [Option.some_bind, hcl, Option.map_none',
          Option.isSome_none] at h
        cases h
      | some acts =>
        obtain ⟨pos, hpos, hlt⟩ :=
          (chainLoop_isSome (sortExts exts) (List.replicate 10 0)).mp
            (by rw [hcl]; rfl) x hx'
        exact ⟨x, pos, rfl, hpos, hlt⟩
  · intro h
    have hex : (extractXdp progs).isSome = true :=
      (extractXdp_isSome progs).mpr (fun q hq => by
        obtain ⟨x, _, h1, _⟩ := h q hq
        exact ⟨x, h1⟩)
    obtain ⟨exts, hexts⟩ := Option.isSome_iff_exists.mp hex
    have hcl : (chainLoop (sortExts exts) (List.replicate 10 0)).isSome
        = true := by
      apply (chainLoop_isSome _ _).mpr
      intro x hx
      have hx2 : x ∈ exts :=
        (List.Perm.mem_iff (List.perm_insertionSort posLE exts)).mp hx
      have hq : ProgramK.xdp x ∈ progs :=
        (extractXdp_mem progs exts hexts x).mp hx2
      obtain ⟨x', pos, hinj, hpos, hlt⟩ := h (ProgramK.xdp x) hq
      injection hinj with hxx
      subst hxx
      exact ⟨pos, hpos, hlt⟩
    rw [buildConfig, hexts]
    obtain ⟨acts, hacts⟩ := Option.isSome_iff_exists.mp hcl
    simp only [Option.some_bind, hacts, Option.map_some', Option.isSome_some]

end Bpfman

namespace BpfdSrv

/-- C3: the claim says a failing static program is logged and skipped and
the daemon does not abort. In the source the loop body is
`bpf_manager.add_program(prog)?`, so the first failure propagates out of
`serve`: the daemon aborts startup with that error, later static programs
are not loaded, and the command loop is never entered. This is the amended
claim. -/
theorem C3_static_failure_aborts
    (add : Registry → Program → Registry × Except BpfdError Nat)
    (st st' : Registry) (p : Program) (rest : List Program) (e : BpfdError)
    (h : add st p = (st', .error e)) :
    serveStartup add st (p :: rest) = .aborted e st' := by
  simp [serveStartup, loadStatic, h]

/-- C3 counterexample: with the first static program failing, startup
aborts with the error and the second static program is never loaded (the
final registry is empty) — the daemon neither skips the failure nor
continues to serve; and with the failing program second, the daemon still
aborts rather than serving. -/
theorem C3_counterexample :
    serveStartup addC3 [] [badProg, goodProg]
        = .aborted (.other "load failed") []
    ∧ serveStartup addC3 [] [goodProg, badProg]
        = .aborted (.other "load failed") [(0, goodProg)] := by
  constructor <;> rfl

/-- C3 witness: the amended theorem at the concrete failing bootstrap. -/
theorem C3_witness :
    serveStartup addC3 [] [badProg, goodProg]
      = .aborted (.other "load failed") [] :=
  C3_static_failure_aborts addC3 [] [] badProg [goodProg]
    (.other "load failed") rfl

/-- C7: a Load whose interface name does not resolve replies with
InvalidInterface, emits no effects, and leaves the registry unchanged —
`add_program` is never consulted. -/
theorem C7_invalid_interface (env : Env) (st : Registry) (req : LoadNetReq)
    (h : env.get_ifindex req.nma.iface = none) :
    handleLoadNet env st req = some (st, [], .error .invalidInterface) := by
  simp [handleLoadNet, h]

/-- C7 witness: the theorem at the concrete unresolvable interface. -/
theorem C7_witness :
    handleLoadNet envC7 [] reqC7 = some ([], [], .error .invalidInterface) :=
  C7_invalid_interface envC7 [] reqC7 rfl

/-- C8: the `position` field of an incoming NetworkMultiAttach Load is
matched with `position: _` and never read: two Load commands identical
except for position produce identical results — same registry, same
effects, same reply — in every environment and registry state. -/
theorem C8_position_ignored (env : Env) (st : Registry)
    (location section_name : String)
    (global_data : List (String × List Nat)) (pt : ProgramType)
    (iface : String) (priority : Int) (proceed_on : ProceedOn)
    (direction : Option Direction) (username : String) (p1 p2 : Int) :
    handleLoadNet env st
      ⟨location, section_name, global_data, pt,
       ⟨iface, priority, proceed_on, direction, p1⟩, username⟩
    = handleLoadNet env st
      ⟨location, section_name, global_data, pt,
       ⟨iface, priority, proceed_on, direction, p2⟩, username⟩ := rfl

/-- C5: the proceed-on normalization — an empty proceed-on becomes the XDP
default mask for kind XDP and the TC default mask for kind TC; a non-empty
proceed-on with kind TC is accepted unchanged with a warning logged; and
such a TC load still proceeds: the handler hands the program (carrying the
unchanged proceed-on) to `add_program`, with the warning among the emitted
effects. -/
theorem C5_proceed_on_normalization (pe pne : ProceedOn)
    (he : pe.codes = []) (hne : pne.codes ≠ [])
    (env : Env) (st : Registry) (loc sec uname iface : String)
    (gd : List (String × List Nat)) (prio pos : Int) (dir : Direction)
    (ifx : Nat) (pd : ProgramData)
    (hif : env.get_ifindex iface = some ifx)
    (hpd : env.mkProgramData loc sec gd uname = .ok pd) :
    normalizeProceedOn .xdp pe = (ProceedOn.default_xdp, [])
    ∧ normalizeProceedOn .tc pe = (ProceedOn.default_tc, [])
    ∧ normalizeProceedOn .tc pne = (pne, [.warnTcProceedOn])
    ∧ handleLoadNet env st
        ⟨loc, sec, gd, .tc, ⟨iface, prio, pne, some dir, pos⟩, uname⟩
      = some (finish (env.addProgram st (.tc ⟨pd,
          ⟨ifx, none, ⟨prio, pd.section_name, false⟩, pne, iface⟩, dir⟩))
          [.warnTcProceedOn]) := by
  have hempty : pe.codes.isEmpty = true := by simp [he]
  have hnonempty : pne.codes.isEmpty = false := by
    simpa using hne
  refine ⟨?_, ?_, ?_, ?_⟩
  · simp [normalizeProceedOn, hempty]
  · simp [normalizeProceedOn, hempty]
  · simp [normalizeProceedOn, hnonempty]
  · simp [handleLoadNet, hif, hpd, normalizeProceedOn, hnonempty]

/-- C5 witness: the theorem at concrete inputs — empty proceed-on gets the
defaults, the non-empty TC list `[0, 1]` passes through with a warning, and
the TC load reaches `add_program`. -/
theorem C5_witness :
    normalizeProceedOn .xdp ⟨[]⟩ = (ProceedOn.default_xdp, [])
    ∧ normalizeProceedOn .tc ⟨[]⟩ = (ProceedOn.default_tc, [])
    ∧ normalizeProceedOn .tc ⟨[0, 1]⟩ = (⟨[0, 1]⟩, [.warnTcProceedOn])
    ∧ handleLoadNet envC5 []
        ⟨"file:///tc.o", "tc_filter", [], .tc,
         ⟨"eth0", 10, ⟨[0, 1]⟩, some .ingress, 0⟩, "bob"⟩
      = some (finish (envC5.addProgram []
          (.tc ⟨⟨"file:///tc.o", "tc_filter", [], "bob"⟩,
            ⟨2, none, ⟨10, "tc_filter", false⟩, ⟨[0, 1]⟩, "eth0"⟩, .ingress⟩))
          [.warnTcProceedOn]) :=
  C5_proceed_on_normalization ⟨[]⟩ ⟨[0, 1]⟩ rfl (by decide) envC5 []
    "file:///tc.o" "tc_filter" "bob" "eth0" [] 10 0 .ingress 2
    ⟨"file:///tc.o", "tc_filter", [], "bob"⟩ rfl rfl

end BpfdSrv

end Spec2Proof
